import Mathlib

/-!
Shallow embedding of the session-authentication core of the inkq web
application: the request-gate middleware (`src/middleware.ts`) and the
sign-in / sign-up / sign-out Astro API routes.  External collaborators
(the HTTP backend, the cookie jar, form parsing) are modelled as explicit
inputs; the decision logic of each handler is translated line by line.
-/

namespace InkQ

/-- The three fixed account roles (`'artist' | 'studio' | 'model'` in
`src/middleware.ts`). -/
inductive Role
  | artist
  | studio
  | model
deriving DecidableEq, Repr

/-- The path segment a role contributes to onboarding/dashboard URLs
(the role value is used verbatim in template literals in the source). -/
def Role.toPathSegment : Role → String
  | .artist => "artist"
  | .studio => "studio"
  | .model => "model"

/-- The `User` interface of `src/middleware.ts` (fields that never influence
control flow — avatar, banner, timestamps — are kept as plain data). -/
structure User where
  id : Nat
  email : String
  username : String
  account_type : Role
  onboarding_completed : Bool
deriving DecidableEq, Repr

/-- `ResolveUserResult` from `src/middleware.ts`: what `resolveUser` returned
for the presented token.  `status` is the HTTP status of `/api/v1/auth/me`
(`none` when the fetch threw), `timedOut` is true when the abort fired. -/
structure ResolveUserResult where
  user : Option User
  status : Option Nat
  timedOut : Bool
deriving DecidableEq, Repr

/-- The value `resolveUser` returns from its catch block when the
`AbortController` timeout fires: `{ user: null, status: null, timedOut: true }`. -/
def timedOutResolveResult : ResolveUserResult :=
  { user := none, status := none, timedOut := true }

/-- JavaScript `String.prototype.startsWith`, on our string model. -/
def jsStartsWith (s pre : String) : Bool :=
  pre.data.isPrefixOf s.data

/-- `PUBLIC_PATHS` from `src/middleware.ts`. -/
def PUBLIC_PATHS : List String :=
  ["/", "/en", "/ru", "/en/signin", "/ru/signin", "/en/signup", "/ru/signup"]

/-- `PROTECTED_PREFIXES` from `src/middleware.ts`. -/
def PROTECTED_PREFIXES : List String :=
  ["/en/dashboard", "/ru/dashboard", "/en/onboarding", "/ru/onboarding"]

/-- `SKIP_PATHS` from `src/middleware.ts`. -/
def SKIP_PATHS : List String :=
  ["/api/", "/assets/", "/favicon.", "/_astro/", "/node_modules/"]

/-- `shouldSkipPath` from `src/middleware.ts`. -/
def shouldSkipPath (pathname : String) : Bool :=
  SKIP_PATHS.any fun skip => jsStartsWith pathname skip

/-- `isPublicPath` from `src/middleware.ts`. -/
def isPublicPath (pathname : String) : Bool :=
  PUBLIC_PATHS.contains pathname || pathname == "/"

/-- `isProtectedPath` from `src/middleware.ts`. -/
def isProtectedPath (pathname : String) : Bool :=
  PROTECTED_PREFIXES.any fun p => jsStartsWith pathname p

/-- `extractLang` from `src/middleware.ts`: `pathname.match(/^\/(en|ru)/)`
succeeds exactly when the path starts with `/en` or `/ru`. -/
def extractLang (pathname : String) : String :=
  if jsStartsWith pathname "/en" then "en"
  else if jsStartsWith pathname "/ru" then "ru"
  else "en"

/-- Left-to-right scan for the unanchored regex
`/\/dashboard\/(artist|studio|model)/`, returning the captured role of the
first match. -/
def dashboardRoleScan : List Char → Option Role
  | [] => none
  | c :: cs =>
    if "/dashboard/artist".data.isPrefixOf (c :: cs) then some .artist
    else if "/dashboard/studio".data.isPrefixOf (c :: cs) then some .studio
    else if "/dashboard/model".data.isPrefixOf (c :: cs) then some .model
    else dashboardRoleScan cs

/-- `pathname.match(/\/dashboard\/(artist|studio|model)/)` from
`src/middleware.ts` (capture group only). -/
def dashboardRoleMatch (pathname : String) : Option Role :=
  dashboardRoleScan pathname.data

/-- The session cookie name (`'inkq_session'` throughout the source). -/
def cookieName : String := "inkq_session"

/-- What the middleware does with the request: forward it downstream
(`await next()`) or answer with a redirect. -/
inductive GateAction
  | forward
  | redirect (target : String) (status : Nat)
deriving DecidableEq, Repr

/-- Observable outcome of one middleware run: the action, whether
`cookies.delete` was called on the session cookie, and the user stored in
`context.locals`. -/
structure GateOutcome where
  action : GateAction
  clearedCookie : Bool
  localsUser : Option User
deriving DecidableEq, Repr

/-- `onRequest` from `src/middleware.ts`, translated branch by branch.
`token` is `cookies.get('inkq_session')?.value`; `res` is what `resolveUser`
returned (consulted only when a token is present, since the source only
calls `resolveUser` inside `if (token)`).  The query strings are the
`URLSearchParams` serializations used by the source
(`error=Session+expired`, `reason=auth_required`). -/
def onRequest (pathname : String) (token : Option String) (res : ResolveUserResult) :
    GateOutcome :=
  if shouldSkipPath pathname then
    { action := .forward, clearedCookie := false, localsUser := none }
  else
    let lang := extractLang pathname
    let hadCookie := token.isSome
    let user : Option User := if hadCookie then res.user else none
    let meStatus : Option Nat := if hadCookie then res.status else none
    let clearedCookie : Bool :=
      hadCookie && user.isNone && (meStatus == some 401 || meStatus == some 403)
    if isPublicPath pathname then
      match user with
      | some u =>
        if pathname == "/" ++ lang ++ "/signin" || pathname == "/" ++ lang ++ "/signup" then
          let redirectPath :=
            if !u.onboarding_completed then
              "/" ++ lang ++ "/onboarding/" ++ u.account_type.toPathSegment
            else
              "/" ++ lang ++ "/dashboard/" ++ u.account_type.toPathSegment
          { action := .redirect redirectPath 302, clearedCookie, localsUser := some u }
        else
          { action := .forward, clearedCookie, localsUser := some u }
      | none =>
        { action := .forward, clearedCookie, localsUser := none }
    else if isProtectedPath pathname then
      match user with
      | none =>
        let query :=
          if hadCookie && (meStatus == some 401 || meStatus == some 403) then
            "error=Session+expired"
          else
            "reason=auth_required"
        { action := .redirect ("/" ++ lang ++ "/signin?" ++ query) 302,
          clearedCookie, localsUser := none }
      | some u =>
        if jsStartsWith pathname ("/" ++ lang ++ "/onboarding") then
          { action := .forward, clearedCookie, localsUser := some u }
        else if jsStartsWith pathname ("/" ++ lang ++ "/dashboard") then
          if !u.onboarding_completed then
            { action := .redirect ("/" ++ lang ++ "/onboarding/" ++ u.account_type.toPathSegment) 302,
              clearedCookie, localsUser := some u }
          else
            match dashboardRoleMatch pathname with
            | some urlRole =>
              if urlRole ≠ u.account_type then
                { action := .redirect ("/" ++ lang ++ "/dashboard/" ++ u.account_type.toPathSegment) 302,
                  clearedCookie, localsUser := some u }
              else
                { action := .forward, clearedCookie, localsUser := some u }
            | none =>
              { action := .forward, clearedCookie, localsUser := some u }
        else
          { action := .forward, clearedCookie, localsUser := some u }
    else
      { action := .forward, clearedCookie, localsUser := user }

/-! ## Cookie transport (shared by the auth routes and the middleware) -/

/-- The options object handed to Astro's `cookies.set` / `cookies.delete`
(absent fields are `none`). -/
structure CookieSetOptions where
  httpOnly : Option Bool := none
  secure : Option Bool := none
  sameSite : Option String := none
  path : Option String := none
  maxAge : Option Nat := none
deriving DecidableEq, Repr

/-- One call into the cookie jar: `cookies.set(name, value, opts)` or
`cookies.delete(name, opts)` (the latter expires the cookie with an empty
value, serialized with exactly the options passed). -/
inductive CookieOp
  | setOp (name value : String) (opts : CookieSetOptions)
  | deleteOp (name : String) (opts : CookieSetOptions)
deriving DecidableEq, Repr

/-- `maxAge` used by sign-in/up: `7 * 24 * 60 * 60` seconds (7 days). -/
def maxAgeSeconds : Nat := 7 * 24 * 60 * 60

/-- The options every `cookies.set(cookieName, …)` call in the auth routes
passes: `{ httpOnly: true, secure: isProduction, sameSite: 'lax', path: '/',
maxAge }`. -/
def sessionCookieSetOptions (prod : Bool) : CookieSetOptions :=
  { httpOnly := some true, secure := some prod, sameSite := some "lax",
    path := some "/", maxAge := some maxAgeSeconds }

/-- The options every `cookies.delete(cookieName, …)` call in the source
passes: `{ path: '/' }` and nothing else (signout route and middleware). -/
def clearCookieOptions : CookieSetOptions := { path := some "/" }

/-! ## Auth API routes -/

/-- A route's HTTP answer: a redirect (`Response.redirect`, with the query
parameters appended via `searchParams.set`) or a JSON body with a status
(the `405 Method not allowed` answers, and the raw-JSON validation answers
of the api/v1 signup route). -/
inductive RouteResponse
  | redirectTo (path : String) (query : List (String × String)) (status : Nat)
  | jsonBody (status : Nat)
deriving DecidableEq, Repr

/-- The HTTP status carried by a `RouteResponse`. -/
def RouteResponse.statusOf : RouteResponse → Nat
  | .redirectTo _ _ st => st
  | .jsonBody st => st

/-- Observable outcome of one auth route invocation: the cookie-jar calls it
made, in order, and its HTTP answer. -/
structure RouteOutcome where
  cookieOps : List CookieOp
  response : RouteResponse
deriving DecidableEq, Repr

/-- JavaScript `String.prototype.trim` (whitespace stripped from both ends),
modelled executably over the character list. -/
def jsTrim (s : String) : String :=
  ⟨((s.data.dropWhile Char.isWhitespace).reverse.dropWhile Char.isWhitespace).reverse⟩

/-- JavaScript truthiness of an optional string (`undefined`/`null` and the
empty string are falsy). -/
def jsTruthy : Option String → Bool
  | some s => s ≠ ""
  | none => false

/-- JavaScript `a || b` on two optional strings, as used for
`body.accountType || body.account_type`. -/
def jsOrStr (a b : Option String) : String :=
  if jsTruthy a then a.getD "" else b.getD ""

/-- Left-to-right scan for the unanchored regex `/\/(en|ru)\//` used on the
`Referer` header, returning the captured language of the first match. -/
def refererLangScan : List Char → Option String
  | [] => none
  | c :: cs =>
    if "/en/".data.isPrefixOf (c :: cs) then some "en"
    else if "/ru/".data.isPrefixOf (c :: cs) then some "ru"
    else refererLangScan cs

/-- `referer.match(/\/(en|ru)\//)`, defaulting to `'en'` when there is no
match — the language-extraction idiom of every auth route. -/
def refererLang (referer : String) : String :=
  (refererLangScan referer.data).getD "en"

/-- A JSON `detail` field as the routes inspect it: present as a string,
present but a truthy non-string, present but falsy, or absent. -/
inductive JsonDetail
  | strVal (s : String)
  | truthyNonStr
  | falsyVal
  | absentField
deriving DecidableEq, Repr

/-- The `if (d?.detail) { if (typeof d.detail === 'string') … }` cascade of
the 422 branches: a nonempty string `detail` is surfaced verbatim, anything
else becomes `'Validation error'`. -/
def detailMessage : JsonDetail → String
  | .strVal s => if s ≠ "" then s else "Validation error"
  | _ => "Validation error"

/-- `Response.ok`: HTTP status in the inclusive range 200–299. -/
def respOk (status : Nat) : Bool := 200 ≤ status && status ≤ 299

/-- Result of a raw `fetch` + manual JSON parse, as done by the
`/auth/signin` and `/auth/signup` routes: the response status together with
the parsed body (`none` when the body was not JSON), or a thrown error
(network failure, malformed request body) caught by the outer `catch`. -/
inductive FetchCall (α : Type)
  | returned (status : Nat) (data : Option α)
  | threw
deriving DecidableEq, Repr

/-- Result of `callBackendJsonParse`: the parsed payload, or a thrown
`Error(message)` (non-ok status, non-JSON body or network failure). -/
inductive ParseCall (α : Type)
  | ok (data : α)
  | threw (msg : String)
deriving DecidableEq, Repr

/-- The user object inside a backend sign-in response (`account_type` is used
verbatim as a path segment by the routes). -/
structure SigninUser where
  account_type : String
  onboarding_completed : Bool
deriving DecidableEq, Repr

/-- The JSON body of the backend `/api/v1/auth/signin` response as the
`/auth/signin` route inspects it (fields are optional: the route tests
truthiness before use). -/
structure SigninRespData where
  access_token : Option String
  user : Option SigninUser
  detail : JsonDetail
deriving DecidableEq, Repr

/-- The JSON body of the backend `/api/v1/auth/signup` response as the
`/auth/signup` route inspects it (only `detail` is ever read). -/
structure SignupRespData where
  detail : JsonDetail
deriving DecidableEq, Repr

/-- Typed backend sign-in payload returned by `callBackendJsonParse` in the
api/v1 routes. -/
structure SigninDataV2 where
  access_token : String
  user : SigninUser
deriving DecidableEq, Repr

/-- Request body of the sign-in routes (`login`/`email`/`password` after
form or JSON parsing; absent fields are `none`). -/
structure SigninBody where
  login : Option String
  email : Option String
  password : Option String
deriving DecidableEq, Repr

/-- Request body of the sign-up routes. -/
structure SignupBody where
  email : Option String
  password : Option String
  username : Option String
  accountType : Option String
  account_type : Option String
deriving DecidableEq, Repr

/-- `(body.accountType ?? body.account_type ?? '').toString().trim()`. -/
def authSignupAccountTypeRaw (body : SignupBody) : String :=
  jsTrim ((body.accountType.orElse fun _ => body.account_type).getD "")

/-- The `/auth/signup` validation `if (!email || !password || !username ||
!account_type_raw)` on the trimmed field values. -/
def authSignupMissingFields (body : SignupBody) : Bool :=
  jsTrim (body.email.getD "") == "" || jsTrim (body.password.getD "") == "" ||
  jsTrim (body.username.getD "") == "" || authSignupAccountTypeRaw body == ""

/-- The api/v1 sign-up validation `if (!body.email || !body.password ||
!body.username || (!body.accountType && !body.account_type))` on the raw
(untrimmed) field values. -/
def apiSignupMissingFields (body : SignupBody) : Bool :=
  !(jsTruthy body.email) || !(jsTruthy body.password) || !(jsTruthy body.username) ||
  (!(jsTruthy body.accountType) && !(jsTruthy body.account_type))

/-- `(body.login ?? body.email ?? '').toString().trim()`. -/
def signinLoginValue (body : SigninBody) : String :=
  jsTrim ((body.login.orElse fun _ => body.email).getD "")

/-- `(body.password ?? '').toString().trim()`. -/
def signinPasswordValue (body : SigninBody) : String :=
  jsTrim (body.password.getD "")

/-- The defensive validation `if (!loginValue || !passwordValue)` of the
sign-in routes (a trimmed value is falsy exactly when it is empty). -/
def signinMissingFields (body : SigninBody) : Bool :=
  signinLoginValue body == "" || signinPasswordValue body == ""

/-- `['artist', 'studio', 'model'].includes(s)`. -/
def validRoleStr (s : String) : Bool :=
  ["artist", "studio", "model"].contains s

/-- Error redirect of the `/auth/signin` route: back to the same-language
sign-in page with `?error=<msg>`, status 302, no cookie touched. -/
def signinErrorRedirect (referer msg : String) : RouteOutcome :=
  { cookieOps := [],
    response := .redirectTo ("/" ++ refererLang referer ++ "/signin") [("error", msg)] 302 }

/-- The `detail` chosen by the `/auth/signin` route when the backend answers
a non-ok status (`401` → generic credentials message, `422` → detail
cascade, anything else → `'Server error'`). -/
def signinErrorDetail (status : Nat) (data : Option SigninRespData) : String :=
  if status = 401 then "Invalid login or password"
  else if status = 422 then
    match data with
    | some d => detailMessage d.detail
    | none => "Validation error"
  else "Server error"

/-- `POST` handler of the `/auth/signin` route (`src/pages/auth/signin.ts`),
translated branch by branch.  `backend` is the backend `fetch` outcome;
`prod` is `import.meta.env.PROD`.  The source checks
`!data || !data.access_token || !data.user` — an absent or empty-string
token and an absent user all fall to the `'Server error'` redirect. -/
def authSigninPOST (method : String) (body : SigninBody) (referer : String)
    (backend : FetchCall SigninRespData) (prod : Bool) : RouteOutcome :=
  if method ≠ "POST" then
    { cookieOps := [], response := .jsonBody 405 }
  else if signinMissingFields body then
    signinErrorRedirect referer "Login and password are required"
  else
    match backend with
    | .threw => signinErrorRedirect referer "Server error"
    | .returned status data =>
      if !respOk status then
        signinErrorRedirect referer (signinErrorDetail status data)
      else
        match data with
        | none => signinErrorRedirect referer "Server error"
        | some d =>
          match d.access_token, d.user with
          | some tokenStr, some u =>
            if tokenStr ≠ "" then
              let lang := refererLang referer
              let redirectPath :=
                if !u.onboarding_completed then
                  "/" ++ lang ++ "/onboarding/" ++ u.account_type
                else
                  "/" ++ lang ++ "/dashboard/" ++ u.account_type
              { cookieOps := [.setOp cookieName tokenStr (sessionCookieSetOptions prod)],
                response := .redirectTo redirectPath [] 302 }
            else
              signinErrorRedirect referer "Server error"
          | _, _ => signinErrorRedirect referer "Server error"

/-- Error redirect of the `/auth/signup` route: back to the same-language
sign-up page with `?error=<msg>`, status 302, no cookie touched. -/
def signupErrorRedirect (referer msg : String) : RouteOutcome :=
  { cookieOps := [],
    response := .redirectTo ("/" ++ refererLang referer ++ "/signup") [("error", msg)] 302 }

/-- The `detail` chosen by the `/auth/signup` route when the backend signup
call answers a non-ok status. -/
def signupErrorDetail (status : Nat) (data : Option SignupRespData) : String :=
  if status = 422 then
    match data with
    | some d => detailMessage d.detail
    | none => "Validation error"
  else if status = 409 then "Email or username already exists"
  else "Server error"

/-- `POST` handler of the `/auth/signup` route (`src/pages/auth/signup.ts`):
validates the fields, calls backend signup, then signs the user in with the
same credentials; on full success sets the session cookie and redirects by
onboarding state.  The combined failure test on the signin step is
`!signinResp.ok || !signinData || !signinData.access_token ||
!signinData.user`, with the detail derived from the signin status. -/
def authSignupPOST (method : String) (body : SignupBody) (referer : String)
    (signupCall : FetchCall SignupRespData) (signinCall : FetchCall SigninRespData)
    (prod : Bool) : RouteOutcome :=
  if method ≠ "POST" then
    { cookieOps := [], response := .jsonBody 405 }
  else if authSignupMissingFields body then
    signupErrorRedirect referer "All fields are required"
  else if !(validRoleStr (authSignupAccountTypeRaw body)) then
    signupErrorRedirect referer "Invalid account type"
  else
      match signupCall with
      | .threw => signupErrorRedirect referer "Server error"
      | .returned status data =>
        if !respOk status then
          signupErrorRedirect referer (signupErrorDetail status data)
        else
          match signinCall with
          | .threw => signupErrorRedirect referer "Server error"
          | .returned st2 data2 =>
            match data2 with
            | none => signinErrorRedirect referer (signinErrorDetail st2 none)
            | some d =>
              match d.access_token, d.user with
              | some tokenStr, some u =>
                if respOk st2 ∧ tokenStr ≠ "" then
                  let lang := refererLang referer
                  let redirectPath :=
                    if !u.onboarding_completed then
                      "/" ++ lang ++ "/onboarding/" ++ u.account_type
                    else
                      "/" ++ lang ++ "/dashboard/" ++ u.account_type
                  { cookieOps := [.setOp cookieName tokenStr (sessionCookieSetOptions prod)],
                    response := .redirectTo redirectPath [] 302 }
                else
                  signinErrorRedirect referer (signinErrorDetail st2 (some d))
              | _, _ => signinErrorRedirect referer (signinErrorDetail st2 (some d))

/-- Scan for a substring occurrence (helper for `jsIncludes`). -/
def jsIncludesScan (sub : List Char) : List Char → Bool
  | [] => sub.isEmpty
  | c :: cs => sub.isPrefixOf (c :: cs) || jsIncludesScan sub cs

/-- JavaScript `String.prototype.includes` (substring containment). -/
def jsIncludes (s sub : String) : Bool := jsIncludesScan sub.data s.data

/-- The error-message → detail mapping of the api/v1 sign-in route's catch
block. -/
def apiSigninErrorDetail (errorMessage : String) : String :=
  if jsIncludes errorMessage "invalid_credentials" then "Invalid login or password"
  else if jsIncludes errorMessage "400" || jsIncludes errorMessage "Bad Request" then errorMessage
  else if jsIncludes errorMessage "401" || jsIncludes errorMessage "Unauthorized" then
    "Invalid login or password"
  else if jsIncludes errorMessage "403" || jsIncludes errorMessage "Forbidden" then "Access denied"
  else "Server error"

/-- `POST` handler of the api/v1 sign-in route
(`src/pages/api/v1/auth/signin.ts`), which delegates the backend call to
`callBackendJsonParse` and maps thrown error messages to user-facing
details. -/
def apiSigninPOST (method : String) (body : SigninBody) (referer : String)
    (backend : ParseCall SigninDataV2) (prod : Bool) : RouteOutcome :=
  if method ≠ "POST" then
    { cookieOps := [], response := .jsonBody 405 }
  else if signinMissingFields body then
    signinErrorRedirect referer "Login and password are required"
  else
    match backend with
    | .ok data =>
      let lang := refererLang referer
      let redirectPath :=
        if !data.user.onboarding_completed then
          "/" ++ lang ++ "/onboarding/" ++ data.user.account_type
        else
          "/" ++ lang ++ "/dashboard/" ++ data.user.account_type
      { cookieOps := [.setOp cookieName data.access_token (sessionCookieSetOptions prod)],
        response := .redirectTo redirectPath [] 302 }
    | .threw msg =>
      let errorMessage := if msg = "" then "An error occurred during signin" else msg
      signinErrorRedirect referer (apiSigninErrorDetail errorMessage)

/-- The error-message → detail mapping of the api/v1 sign-up route's catch
block. -/
def apiSignupErrorDetail (errorMessage : String) : String :=
  if jsIncludes errorMessage "already exists" then "Email or username already exists"
  else if jsIncludes errorMessage "Invalid account_type" then "Invalid account type"
  else if jsIncludes errorMessage "400" || jsIncludes errorMessage "Bad Request" then errorMessage
  else if jsIncludes errorMessage "409" || jsIncludes errorMessage "Conflict" then
    "Email or username already exists"
  else if jsIncludes errorMessage "422" || jsIncludes errorMessage "Unprocessable" then
    "Validation error"
  else "Server error"

/-- The catch branch of the api/v1 sign-up route: map the thrown message and
redirect back to sign-up. -/
def apiSignupCatch (referer msg : String) : RouteOutcome :=
  let errorMessage := if msg = "" then "An error occurred during signup" else msg
  { cookieOps := [],
    response := .redirectTo ("/" ++ refererLang referer ++ "/signup")
      [("error", apiSignupErrorDetail errorMessage)] 302 }

/-- `POST` handler of the api/v1 sign-up route
(`src/pages/api/v1/auth/signup.ts`).  Unlike the `/auth/*` routes, its field
and account-type validation answers raw `400` JSON, not a redirect. -/
def apiSignupPOST (method : String) (body : SignupBody) (referer : String)
    (signupCall : ParseCall Unit) (signinCall : ParseCall SigninDataV2)
    (prod : Bool) : RouteOutcome :=
  if method ≠ "POST" then
    { cookieOps := [], response := .jsonBody 405 }
  else if apiSignupMissingFields body then
    { cookieOps := [], response := .jsonBody 400 }
  else if !(validRoleStr (jsOrStr body.accountType body.account_type)) then
    { cookieOps := [], response := .jsonBody 400 }
  else
      match signupCall with
      | .threw msg => apiSignupCatch referer msg
      | .ok _ =>
        match signinCall with
        | .threw msg => apiSignupCatch referer msg
        | .ok data =>
          let lang := refererLang referer
          let redirectPath :=
            if !data.user.onboarding_completed then
              "/" ++ lang ++ "/onboarding/" ++ data.user.account_type
            else
              "/" ++ lang ++ "/dashboard/" ++ data.user.account_type
          { cookieOps := [.setOp cookieName data.access_token (sessionCookieSetOptions prod)],
            response := .redirectTo redirectPath [] 302 }

/-- Result of `request.formData()` in the signout route: parsed (with the
optional `lang` field) or thrown. -/
inductive FormDataResult
  | parsed (langField : Option String)
  | failed
deriving DecidableEq, Repr

/-- `url.pathname.match(/^\/(en|ru)/)` as used by the signout route's URL
fallback. -/
def urlLang (pathname : String) : Option String :=
  if jsStartsWith pathname "/en" then some "en"
  else if jsStartsWith pathname "/ru" then some "ru"
  else none

/-- The language computation of the signout route: prefer a valid `lang`
form field, fall back to URL parsing when form parsing failed, and re-run
the URL fallback whenever the value so far is `'en'`. -/
def signoutLang (form : FormDataResult) (pathname : String) : String :=
  let lang1 :=
    match form with
    | .parsed langField =>
      match langField with
      | some l => if l = "en" ∨ l = "ru" then l else "en"
      | none => "en"
    | .failed => (urlLang pathname).getD "en"
  if lang1 = "en" then (urlLang pathname).getD "en" else lang1

/-- Outcome of the best-effort backend revocation call (`callBackendJson`
resolved — with any status — or threw; the route catches and ignores
both the throw and any non-ok status). -/
inductive RevokeResult
  | completed
  | threw
deriving DecidableEq, Repr

/-- `POST` handler of the signout route (`src/pages/api/v1/auth/signout.ts`):
best-effort backend revocation (when a token is present), then always clear
the cookie with `{ path: '/' }` and answer `303` to the locale home page.
The response does not depend on the token or on the revocation outcome. -/
def apiSignoutPOST (method : String) (form : FormDataResult) (pathname : String)
    (_token : Option String) (_revoke : RevokeResult) : RouteOutcome :=
  if method ≠ "POST" then
    { cookieOps := [], response := .jsonBody 405 }
  else
    let lang := signoutLang form pathname
    { cookieOps := [.deleteOp cookieName clearCookieOptions],
      response := .redirectTo ("/" ++ lang) [] 303 }

/-- The options `src/middleware.ts` passes to `cookies.delete` when the
backend answers 401/403: `{ path: '/' }` and nothing else. -/
def middlewareClearOptions : CookieSetOptions := { path := some "/" }

/-- The options the browser-facing `/auth/signout` route
(`src/pages/auth/signout.ts`) passes to `cookies.set(cookieName, '', …)`
when clearing: the full sign-in flag set with `maxAge: 0`. -/
def clearCookieSetOptions (prod : Bool) : CookieSetOptions :=
  { httpOnly := some true, secure := some prod, sameSite := some "lax",
    path := some "/", maxAge := some 0 }

/-- The language computation of the `/auth/signout` route: `Referer`-based
first, overridden by a valid `lang` form field when form parsing succeeds. -/
def authSignoutLang (referer : String) (form : FormDataResult) : String :=
  match form with
  | .parsed (some l) => if l = "en" ∨ l = "ru" then l else refererLang referer
  | _ => refererLang referer

/-- `POST` handler of the browser-facing `/auth/signout` route
(`src/pages/auth/signout.ts`): best-effort backend revocation (when a token
is present), then clear the cookie by setting it to the empty string with
the mirrored flag set and `maxAge: 0`, and answer a 302 redirect to the
locale home page.  The catch branch performs the same clear and redirect, so
the outcome does not depend on the token or the revocation result. -/
def authSignoutPOST (method : String) (referer : String) (form : FormDataResult)
    (_token : Option String) (_revoke : RevokeResult) (prod : Bool) : RouteOutcome :=
  if method ≠ "POST" then
    { cookieOps := [], response := .jsonBody 405 }
  else
    let lang := authSignoutLang referer form
    { cookieOps := [.setOp cookieName "" (clearCookieSetOptions prod)],
      response := .redirectTo ("/" ++ lang) [] 302 }

/-! ## Concrete sample inputs used by witnesses and counterexamples -/

/-- The sign-in body of the spec's fresh-sign-in scenario. -/
def demoSigninBody : SigninBody :=
  { login := some "demo-artist@x.test", email := none, password := some "demo123" }

/-- The backend user of the fresh-sign-in scenario (artist, onboarding
incomplete). -/
def demoSigninUser : SigninUser :=
  { account_type := "artist", onboarding_completed := false }

/-- A successful backend sign-in payload for the scenario. -/
def demoSigninRespData : SigninRespData :=
  { access_token := some "tok123", user := some demoSigninUser, detail := .absentField }

/-! ## Helper lemmas about the path classifiers -/

/-- Two character lists disagree at some position covered by both. -/
def charConflict : List Char → List Char → Bool
  | a :: as, b :: bs => if a = b then charConflict as bs else true
  | _, _ => false

theorem isPrefixOf_eq_false_of_conflict (p s t : List Char) (h : charConflict p s = true) :
    p.isPrefixOf (s ++ t) = false := by
  induction p generalizing s with
  | nil => simp [charConflict] at h
  | cons a as ih =>
    cases s with
    | nil => simp [charConflict] at h
    | cons b bs =>
      by_cases hab : a = b
      · subst hab
        rw [charConflict, if_pos rfl] at h
        simp [List.isPrefixOf, List.cons_append, ih bs h]
      · simp [List.isPrefixOf, List.cons_append, hab]

theorem jsStartsWith_iff (s pre : String) :
    jsStartsWith s pre = true ↔ ∃ t, s.data = pre.data ++ t := by
  unfold jsStartsWith
  rw [List.isPrefixOf_iff_prefix]
  exact ⟨fun ⟨t, ht⟩ => ⟨t, ht.symm⟩, fun ⟨t, ht⟩ => ⟨t, ht.symm⟩⟩

theorem jsStartsWith_append (a b : String) : jsStartsWith (a ++ b) a = true := by
  unfold jsStartsWith
  rw [String.data_append]
  exact List.isPrefixOf_iff_prefix.mpr (List.prefix_append _ _)

theorem jsStartsWith_of_data (s pre : String) (l t : List Char)
    (hd : s.data = l ++ t) (h : pre.data.isPrefixOf l = true) : jsStartsWith s pre = true := by
  unfold jsStartsWith
  rw [hd]
  exact List.isPrefixOf_iff_prefix.mpr
    ((List.isPrefixOf_iff_prefix.mp h).trans (List.prefix_append _ _))

theorem extractLang_of_en (p : String) (h : jsStartsWith p "/en" = true) :
    extractLang p = "en" := by
  simp [extractLang, h]

theorem extractLang_of_ru (p : String) (h : jsStartsWith p "/ru" = true) :
    extractLang p = "ru" := by
  obtain ⟨t, hd⟩ := (jsStartsWith_iff p "/ru").mp h
  have hen : jsStartsWith p "/en" = false := by
    unfold jsStartsWith
    rw [hd]
    exact isPrefixOf_eq_false_of_conflict _ _ _ (by decide)
  simp [extractLang, hen, h]

theorem shouldSkipPath_of_data (p : String) (l t : List Char) (hd : p.data = l ++ t)
    (h : (SKIP_PATHS.all fun q => charConflict q.data l) = true) :
    shouldSkipPath p = false := by
  simp only [SKIP_PATHS, List.all_cons, List.all_nil, Bool.and_eq_true, and_true] at h
  obtain ⟨h1, h2, h3, h4, h5⟩ := h
  simp only [shouldSkipPath, SKIP_PATHS, List.any_cons, List.any_nil, Bool.or_eq_false_iff,
    jsStartsWith]
  rw [hd]
  refine ⟨isPrefixOf_eq_false_of_conflict _ _ _ h1, isPrefixOf_eq_false_of_conflict _ _ _ h2,
    isPrefixOf_eq_false_of_conflict _ _ _ h3, isPrefixOf_eq_false_of_conflict _ _ _ h4,
    isPrefixOf_eq_false_of_conflict _ _ _ h5, trivial⟩

theorem not_public_of_data_long (p : String) (l t : List Char)
    (hd : p.data = l ++ t) (hl : 10 < l.length) : isPublicPath p = false := by
  have hdl : 10 < p.data.length := by
    rw [hd, List.length_append]; omega
  simp only [isPublicPath, Bool.or_eq_false_iff]
  constructor
  · show List.elem p PUBLIC_PATHS = false
    rw [List.elem_eq_mem, decide_eq_false_iff_not]
    intro hm
    simp only [PUBLIC_PATHS, List.mem_cons, List.not_mem_nil, or_false] at hm
    rcases hm with rfl | rfl | rfl | rfl | rfl | rfl | rfl <;> revert hdl <;> decide
  · rw [beq_eq_false_iff_ne]
    intro hq
    rw [hq] at hdl
    revert hdl
    decide

theorem isProtectedPath_of_data (p q : String) (t : List Char)
    (hq : q ∈ PROTECTED_PREFIXES) (hd : p.data = q.data ++ t) : isProtectedPath p = true := by
  simp only [isProtectedPath, List.any_eq_true]
  exact ⟨q, hq, by unfold jsStartsWith; rw [hd]; exact List.isPrefixOf_iff_prefix.mpr ⟨t, rfl⟩⟩

/-! ## Helper lemmas about the request gate -/

/-- A path starting with a locale-prefixed protected prefix is neither
skipped nor public, is protected, and yields that locale. -/
theorem protected_classification (p lang : String) (hl : lang = "en" ∨ lang = "ru")
    (h : jsStartsWith p ("/" ++ lang ++ "/dashboard") = true ∨
         jsStartsWith p ("/" ++ lang ++ "/onboarding") = true) :
    shouldSkipPath p = false ∧ isPublicPath p = false ∧ isProtectedPath p = true ∧
      extractLang p = lang := by
  rcases hl with rfl | rfl <;> rcases h with h | h <;>
    obtain ⟨t, hd⟩ := (jsStartsWith_iff _ _).mp h <;>
    refine ⟨shouldSkipPath_of_data p _ t hd (by decide),
            not_public_of_data_long p _ t hd (by decide),
            isProtectedPath_of_data p _ t (by decide) hd, ?_⟩ <;>
    first
      | exact extractLang_of_en p (jsStartsWith_of_data p "/en" _ t hd (by decide))
      | exact extractLang_of_ru p (jsStartsWith_of_data p "/ru" _ t hd (by decide))

/-- Gate outcome on a protected path with no cookie. -/
theorem onRequest_noToken (p lang : String) (res : ResolveUserResult)
    (hskip : shouldSkipPath p = false) (hpub : isPublicPath p = false)
    (hprot : isProtectedPath p = true) (hlang : extractLang p = lang) :
    onRequest p none res =
      { action := .redirect ("/" ++ lang ++ "/signin?reason=auth_required") 302,
        clearedCookie := false, localsUser := none } := by
  simp [onRequest, hskip, hpub, hprot, hlang, String.append_assoc]

/-- Gate outcome on a protected path when the backend answered 401/403. -/
theorem onRequest_token_badStatus (p lang tok : String) (res : ResolveUserResult)
    (hskip : shouldSkipPath p = false) (hpub : isPublicPath p = false)
    (hprot : isProtectedPath p = true) (hlang : extractLang p = lang)
    (hu : res.user = none) (hst : res.status = some 401 ∨ res.status = some 403) :
    onRequest p (some tok) res =
      { action := .redirect ("/" ++ lang ++ "/signin?error=Session+expired") 302,
        clearedCookie := true, localsUser := none } := by
  rcases hst with hst | hst <;>
    simp [onRequest, hskip, hpub, hprot, hlang, hu, hst, String.append_assoc]

/-- Gate outcome on a protected path when resolution produced no user and a
status other than 401/403 (timeout, network error, 5xx). -/
theorem onRequest_token_noUser_otherStatus (p lang tok : String) (res : ResolveUserResult)
    (hskip : shouldSkipPath p = false) (hpub : isPublicPath p = false)
    (hprot : isProtectedPath p = true) (hlang : extractLang p = lang)
    (hu : res.user = none) (h401 : res.status ≠ some 401) (h403 : res.status ≠ some 403) :
    onRequest p (some tok) res =
      { action := .redirect ("/" ++ lang ++ "/signin?reason=auth_required") 302,
        clearedCookie := false, localsUser := none } := by
  simp [onRequest, hskip, hpub, hprot, hlang, hu, h401, h403, String.append_assoc]

/-! ## Helper lemmas about the auth routes -/

/-- Every `/auth/signin` outcome is either a cookie-setting success redirect
or an error redirect back to the sign-in page. -/
theorem authSigninPOST_cases (body : SigninBody) (referer : String)
    (backend : FetchCall SigninRespData) (prod : Bool) :
    (∃ tokenStr redirectPath, authSigninPOST "POST" body referer backend prod =
      { cookieOps := [.setOp cookieName tokenStr (sessionCookieSetOptions prod)],
        response := .redirectTo redirectPath [] 302 }) ∨
    (∃ msg, authSigninPOST "POST" body referer backend prod = signinErrorRedirect referer msg) := by
  by_cases hv : signinMissingFields body = true
  · right; exact ⟨"Login and password are required", by simp [authSigninPOST, hv]⟩
  · cases backend with
    | threw => right; exact ⟨"Server error", by simp [authSigninPOST, hv]⟩
    | returned status data =>
      by_cases hok : respOk status = true
      · cases data with
        | none => right; exact ⟨"Server error", by simp [authSigninPOST, hv, hok]⟩
        | some d =>
          cases hta : d.access_token with
          | none => right; exact ⟨"Server error", by simp [authSigninPOST, hv, hok, hta]⟩
          | some tokenStr =>
            cases htu : d.user with
            | none => right; exact ⟨"Server error", by simp [authSigninPOST, hv, hok, hta, htu]⟩
            | some u =>
              by_cases hts : tokenStr = ""
              · right; exact ⟨"Server error", by simp [authSigninPOST, hv, hok, hta, htu, hts]⟩
              · left
                refine ⟨tokenStr,
                  if !u.onboarding_completed then
                    "/" ++ refererLang referer ++ "/onboarding/" ++ u.account_type
                  else
                    "/" ++ refererLang referer ++ "/dashboard/" ++ u.account_type,
                  by simp [authSigninPOST, hv, hok, hta, htu, hts]⟩
      · right
        exact ⟨signinErrorDetail status data, by simp [authSigninPOST, hv, hok]⟩

/-- Every api/v1 sign-in outcome is either a cookie-setting success redirect
or an error redirect back to the sign-in page. -/
theorem apiSigninPOST_cases (body : SigninBody) (referer : String)
    (backend : ParseCall SigninDataV2) (prod : Bool) :
    (∃ tokenStr redirectPath, apiSigninPOST "POST" body referer backend prod =
      { cookieOps := [.setOp cookieName tokenStr (sessionCookieSetOptions prod)],
        response := .redirectTo redirectPath [] 302 }) ∨
    (∃ msg, apiSigninPOST "POST" body referer backend prod = signinErrorRedirect referer msg) := by
  by_cases hv : signinMissingFields body = true
  · right; exact ⟨"Login and password are required", by simp [apiSigninPOST, hv]⟩
  · cases backend with
    | ok data =>
      left
      refine ⟨data.access_token,
        if !data.user.onboarding_completed then
          "/" ++ refererLang referer ++ "/onboarding/" ++ data.user.account_type
        else
          "/" ++ refererLang referer ++ "/dashboard/" ++ data.user.account_type,
        by simp [apiSigninPOST, hv]⟩
    | threw msg =>
      right
      exact ⟨apiSigninErrorDetail (if msg = "" then "An error occurred during signin" else msg),
        by simp [apiSigninPOST, hv]⟩

/-- Every `/auth/signup` outcome is a cookie-setting success redirect, an
error redirect to sign-up, or an error redirect to sign-in. -/
theorem authSignupPOST_cases (body : SignupBody) (referer : String)
    (su : FetchCall SignupRespData) (si : FetchCall SigninRespData) (prod : Bool) :
    (∃ tokenStr redirectPath, authSignupPOST "POST" body referer su si prod =
      { cookieOps := [.setOp cookieName tokenStr (sessionCookieSetOptions prod)],
        response := .redirectTo redirectPath [] 302 }) ∨
    (∃ msg, authSignupPOST "POST" body referer su si prod = signupErrorRedirect referer msg) ∨
    (∃ msg, authSignupPOST "POST" body referer su si prod = signinErrorRedirect referer msg) := by
  by_cases hv : authSignupMissingFields body = true
  · right; left; exact ⟨"All fields are required", by simp [authSignupPOST, hv]⟩
  · by_cases hat : validRoleStr (authSignupAccountTypeRaw body) = true
    · cases su with
      | threw => right; left; exact ⟨"Server error", by simp [authSignupPOST, hv, hat]⟩
      | returned status data =>
        by_cases hok : respOk status = true
        · cases si with
          | threw => right; left; exact ⟨"Server error", by simp [authSignupPOST, hv, hat, hok]⟩
          | returned st2 data2 =>
            cases data2 with
            | none =>
              right; right
              exact ⟨signinErrorDetail st2 none, by simp [authSignupPOST, hv, hat, hok]⟩
            | some d =>
              cases hta : d.access_token with
              | none =>
                right; right
                exact ⟨signinErrorDetail st2 (some d), by simp [authSignupPOST, hv, hat, hok, hta]⟩
              | some tokenStr =>
                cases htu : d.user with
                | none =>
                  right; right
                  exact ⟨signinErrorDetail st2 (some d),
                    by simp [authSignupPOST, hv, hat, hok, hta, htu]⟩
                | some u =>
                  by_cases hcond : respOk st2 = true ∧ tokenStr ≠ ""
                  · left
                    refine ⟨tokenStr,
                      if !u.onboarding_completed then
                        "/" ++ refererLang referer ++ "/onboarding/" ++ u.account_type
                      else
                        "/" ++ refererLang referer ++ "/dashboard/" ++ u.account_type,
                      by simp [authSignupPOST, hv, hat, hok, hta, htu, hcond]⟩
                  · right; right
                    exact ⟨signinErrorDetail st2 (some d),
                      by simp [authSignupPOST, hv, hat, hok, hta, htu, hcond]⟩
        · right; left
          exact ⟨signupErrorDetail status data, by simp [authSignupPOST, hv, hat, hok]⟩
    · right; left; exact ⟨"Invalid account type", by simp [authSignupPOST, hv, hat]⟩

/-- Every api/v1 sign-up outcome is a cookie-setting success redirect, a raw
400 JSON answer, or a catch-branch error redirect. -/
theorem apiSignupPOST_cases (body : SignupBody) (referer : String)
    (su : ParseCall Unit) (si : ParseCall SigninDataV2) (prod : Bool) :
    (∃ tokenStr redirectPath, apiSignupPOST "POST" body referer su si prod =
      { cookieOps := [.setOp cookieName tokenStr (sessionCookieSetOptions prod)],
        response := .redirectTo redirectPath [] 302 }) ∨
    (apiSignupPOST "POST" body referer su si prod =
      { cookieOps := [], response := .jsonBody 400 }) ∨
    (∃ msg, apiSignupPOST "POST" body referer su si prod = apiSignupCatch referer msg) := by
  by_cases hv : apiSignupMissingFields body = true
  · right; left; simp [apiSignupPOST, hv]
  · by_cases hat : validRoleStr (jsOrStr body.accountType body.account_type) = true
    · cases su with
      | threw msg => right; right; exact ⟨msg, by simp [apiSignupPOST, hv, hat]⟩
      | ok d =>
        cases si with
        | threw msg => right; right; exact ⟨msg, by simp [apiSignupPOST, hv, hat]⟩
        | ok data =>
          left
          refine ⟨data.access_token,
            if !data.user.onboarding_completed then
              "/" ++ refererLang referer ++ "/onboarding/" ++ data.user.account_type
            else
              "/" ++ refererLang referer ++ "/dashboard/" ++ data.user.account_type,
            by simp [apiSignupPOST, hv, hat]⟩
    · right; left; simp [apiSignupPOST, hv, hat]

/-! ## Claims -/

/-- C1 counterexample: on a protected dashboard path with a session token
whose resolution timed out, the gate does NOT clear the cookie and does NOT
redirect with the session-expired indicator — refuting the claim that a
timeout is treated identically to `no_such_session`. -/
theorem gate_timeout_counterexample :
    ¬ ((onRequest "/en/dashboard/artist" (some "tok") timedOutResolveResult).clearedCookie = true ∧
       (onRequest "/en/dashboard/artist" (some "tok") timedOutResolveResult).action =
         .redirect "/en/signin?error=Session+expired" 302) := by
  decide

/-- C1 (amended): a request to a protected onboarding/dashboard path whose
session-resolution call timed out (the `AbortError` outcome of
`resolveUser`, with `status = null`) is answered with a redirect to the
same-locale sign-in page carrying the plain login-required indicator
`reason=auth_required`, and the session cookie is NOT cleared — the timeout
is handled like the no-token case, not like `no_such_session`. -/
theorem gate_timeout_like_no_token (p lang tok : String)
    (hl : lang = "en" ∨ lang = "ru")
    (hprot : jsStartsWith p ("/" ++ lang ++ "/dashboard") = true ∨
             jsStartsWith p ("/" ++ lang ++ "/onboarding") = true) :
    onRequest p (some tok) timedOutResolveResult =
      { action := .redirect ("/" ++ lang ++ "/signin?reason=auth_required") 302,
        clearedCookie := false, localsUser := none } := by
  obtain ⟨hskip, hpub, hprotT, hlang⟩ := protected_classification p lang hl hprot
  exact onRequest_token_noUser_otherStatus p lang tok timedOutResolveResult hskip hpub hprotT
    hlang rfl (by decide) (by decide)

/-- Witness for C1 at a concrete timed-out request. -/
theorem gate_timeout_like_no_token_witness :
    onRequest "/en/dashboard/artist" (some "tok") timedOutResolveResult =
      { action := .redirect ("/" ++ "en" ++ "/signin?reason=auth_required") 302,
        clearedCookie := false, localsUser := none } :=
  gate_timeout_like_no_token "/en/dashboard/artist" "en" "tok" (Or.inl rfl) (Or.inl (by decide))

/-- C2 counterexample: a successful `POST /auth/signin` with valid
credentials answers with redirect status 302, not the claimed 303. -/
theorem signin_status_counterexample :
    (authSigninPOST "POST" demoSigninBody "http://x/en/signin"
        (.returned 200 (some demoSigninRespData)) false).response.statusOf ≠ 303 := by
  decide

/-- C2 (amended): a successful `POST` to either sign-in route sets the
session cookie and answers a 302 redirect (not 303) to the role-appropriate
onboarding path (onboarding incomplete) or dashboard path (complete); every
outcome that sets no cookie is a 302 redirect back to the sign-in page with
an `error` query parameter; and every outcome whatsoever is a 302 redirect —
never a raw 4xx to the browser form. -/
theorem signin_redirect_contract :
    (∀ body referer prod status d tokenStr u,
      signinMissingFields body = false → respOk status = true →
      d.access_token = some tokenStr → tokenStr ≠ "" → d.user = some u →
      authSigninPOST "POST" body referer (.returned status (some d)) prod =
        { cookieOps := [.setOp cookieName tokenStr (sessionCookieSetOptions prod)],
          response := .redirectTo
            (if !u.onboarding_completed then
              "/" ++ refererLang referer ++ "/onboarding/" ++ u.account_type
            else
              "/" ++ refererLang referer ++ "/dashboard/" ++ u.account_type) [] 302 }) ∧
    (∀ body referer backend prod,
      (authSigninPOST "POST" body referer backend prod).cookieOps = [] →
      ∃ msg, authSigninPOST "POST" body referer backend prod = signinErrorRedirect referer msg) ∧
    (∀ body referer backend prod,
      ∃ path q, (authSigninPOST "POST" body referer backend prod).response =
        .redirectTo path q 302) ∧
    (∀ body referer prod data,
      signinMissingFields body = false →
      apiSigninPOST "POST" body referer (.ok data) prod =
        { cookieOps := [.setOp cookieName data.access_token (sessionCookieSetOptions prod)],
          response := .redirectTo
            (if !data.user.onboarding_completed then
              "/" ++ refererLang referer ++ "/onboarding/" ++ data.user.account_type
            else
              "/" ++ refererLang referer ++ "/dashboard/" ++ data.user.account_type) [] 302 }) ∧
    (∀ body referer backend prod,
      ∃ path q, (apiSigninPOST "POST" body referer backend prod).response =
        .redirectTo path q 302) := by
  refine ⟨?_, ?_, ?_, ?_, ?_⟩
  · intro body referer prod status d tokenStr u hm hok hta hts htu
    simp [authSigninPOST, hm, hok, hta, hts, htu]
  · intro body referer backend prod hc
    rcases authSigninPOST_cases body referer backend prod with ⟨t, rp, he⟩ | ⟨msg, he⟩
    · rw [he] at hc; simp at hc
    · exact ⟨msg, he⟩
  · intro body referer backend prod
    rcases authSigninPOST_cases body referer backend prod with ⟨t, rp, he⟩ | ⟨msg, he⟩
    · exact ⟨rp, [], by rw [he]⟩
    · exact ⟨"/" ++ refererLang referer ++ "/signin", [("error", msg)], by rw [he]; rfl⟩
  · intro body referer prod data hm
    simp [apiSigninPOST, hm]
  · intro body referer backend prod
    rcases apiSigninPOST_cases body referer backend prod with ⟨t, rp, he⟩ | ⟨msg, he⟩
    · exact ⟨rp, [], by rw [he]⟩
    · exact ⟨"/" ++ refererLang referer ++ "/signin", [("error", msg)], by rw [he]; rfl⟩

/-- Witness for C2: the fresh-sign-in scenario (valid credentials, artist,
onboarding incomplete) sets the cookie and redirects 302 to the onboarding
path. -/
theorem signin_redirect_contract_witness :
    authSigninPOST "POST" demoSigninBody "http://x/en/signin"
        (.returned 200 (some demoSigninRespData)) false =
      { cookieOps := [.setOp cookieName "tok123" (sessionCookieSetOptions false)],
        response := .redirectTo
          ("/" ++ refererLang "http://x/en/signin" ++ "/onboarding/" ++ "artist") [] 302 } := by
  have h := signin_redirect_contract.1 demoSigninBody "http://x/en/signin" false 200
    demoSigninRespData "tok123" demoSigninUser (by decide) (by decide) rfl (by decide) rfl
  simpa [demoSigninUser] using h

/-- C3: a request to a protected dashboard path with a cookie whose token
resolves to an expired or unknown session (backend answers 401/403) gets the
session cookie cleared and a 302 redirect to the same-locale sign-in page
with the query string `error=Session+expired`. -/
theorem gate_expired_session_redirect (p lang tok : String) (res : ResolveUserResult)
    (hl : lang = "en" ∨ lang = "ru")
    (hdash : jsStartsWith p ("/" ++ lang ++ "/dashboard") = true)
    (hu : res.user = none) (hst : res.status = some 401 ∨ res.status = some 403) :
    onRequest p (some tok) res =
      { action := .redirect ("/" ++ lang ++ "/signin?error=Session+expired") 302,
        clearedCookie := true, localsUser := none } := by
  obtain ⟨hskip, hpub, hprotT, hlang⟩ := protected_classification p lang hl (Or.inl hdash)
  exact onRequest_token_badStatus p lang tok res hskip hpub hprotT hlang hu hst

/-- Witness for C3: `/en/dashboard/artist` with an expired token (401). -/
theorem gate_expired_session_redirect_witness :
    onRequest "/en/dashboard/artist" (some "tok")
        { user := none, status := some 401, timedOut := false } =
      { action := .redirect ("/" ++ "en" ++ "/signin?error=Session+expired") 302,
        clearedCookie := true, localsUser := none } :=
  gate_expired_session_redirect "/en/dashboard/artist" "en" "tok" _
    (Or.inl rfl) (by decide) rfl (Or.inl rfl)

/-- C4 counterexample: the api/v1 signout route clears the session cookie
through `cookies.delete` passing only `{ path: '/' }` — its options do not
carry the `HttpOnly`, `SameSite` or `Secure` flags that the set-cookie calls
use, so not *every* clearing of the cookie mirrors the flags that were used
to set it (the browser-facing `/auth/signout` route does mirror them; this
route and the middleware do not). -/
theorem cookie_clear_flags_counterexample :
    (apiSignoutPOST "POST" (.parsed (some "en")) "/en/dashboard/artist"
        (some "tok") .completed).cookieOps = [.deleteOp cookieName clearCookieOptions] ∧
    clearCookieOptions.httpOnly ≠ (sessionCookieSetOptions true).httpOnly ∧
    clearCookieOptions.sameSite ≠ (sessionCookieSetOptions true).sameSite ∧
    clearCookieOptions.secure ≠ (sessionCookieSetOptions true).secure := by
  decide

/-- C4 (amended): every set of the session cookie by the sign-in and sign-up
endpoints uses the fixed name with `HttpOnly`, `SameSite=Lax`, `Secure` in
production only, `Path=/` and a 7-day `Max-Age`.  Clearing happens at two
kinds of sites: the browser-facing `/auth/signout` route clears exactly as
the claim describes — `cookies.set` with empty value, `Max-Age=0`, and the
same `HttpOnly`/`SameSite`/`Secure`/`Path` flags the set calls use — while
the api/v1 signout route and the middleware clear through `cookies.delete`
passing only `{ path: '/' }` (same path, other flags not mirrored). -/
theorem cookie_flags_contract :
    (∀ prod, sessionCookieSetOptions prod =
      { httpOnly := some true, secure := some prod, sameSite := some "lax",
        path := some "/", maxAge := some (7 * 24 * 60 * 60) }) ∧
    (∀ body referer backend prod op,
      op ∈ (authSigninPOST "POST" body referer backend prod).cookieOps →
      ∃ v, op = .setOp cookieName v (sessionCookieSetOptions prod)) ∧
    (∀ body referer su si prod op,
      op ∈ (authSignupPOST "POST" body referer su si prod).cookieOps →
      ∃ v, op = .setOp cookieName v (sessionCookieSetOptions prod)) ∧
    (∀ body referer backend prod op,
      op ∈ (apiSigninPOST "POST" body referer backend prod).cookieOps →
      ∃ v, op = .setOp cookieName v (sessionCookieSetOptions prod)) ∧
    (∀ body referer su si prod op,
      op ∈ (apiSignupPOST "POST" body referer su si prod).cookieOps →
      ∃ v, op = .setOp cookieName v (sessionCookieSetOptions prod)) ∧
    (∀ form pathname token revoke op,
      op ∈ (apiSignoutPOST "POST" form pathname token revoke).cookieOps →
      op = .deleteOp cookieName clearCookieOptions) ∧
    clearCookieOptions = ({ path := some "/" } : CookieSetOptions) ∧
    (∀ prod, clearCookieOptions.path = (sessionCookieSetOptions prod).path) ∧
    (∀ referer form token revoke prod,
      authSignoutPOST "POST" referer form token revoke prod =
        { cookieOps := [.setOp cookieName "" (clearCookieSetOptions prod)],
          response := .redirectTo ("/" ++ authSignoutLang referer form) [] 302 }) ∧
    (∀ prod,
      (clearCookieSetOptions prod).httpOnly = (sessionCookieSetOptions prod).httpOnly ∧
      (clearCookieSetOptions prod).sameSite = (sessionCookieSetOptions prod).sameSite ∧
      (clearCookieSetOptions prod).secure = (sessionCookieSetOptions prod).secure ∧
      (clearCookieSetOptions prod).path = (sessionCookieSetOptions prod).path ∧
      (clearCookieSetOptions prod).maxAge = some 0) ∧
    middlewareClearOptions = clearCookieOptions := by
  refine ⟨fun _ => rfl, ?_, ?_, ?_, ?_, ?_, rfl, fun _ => rfl, ?_,
    fun _ => ⟨rfl, rfl, rfl, rfl, rfl⟩, rfl⟩
  · intro body referer backend prod op hop
    rcases authSigninPOST_cases body referer backend prod with ⟨t, rp, he⟩ | ⟨msg, he⟩ <;>
      rw [he] at hop <;> simp [signinErrorRedirect] at hop
    exact ⟨t, hop⟩
  · intro body referer su si prod op hop
    rcases authSignupPOST_cases body referer su si prod with ⟨t, rp, he⟩ | ⟨msg, he⟩ | ⟨msg, he⟩ <;>
      rw [he] at hop <;> simp [signinErrorRedirect, signupErrorRedirect] at hop
    exact ⟨t, hop⟩
  · intro body referer backend prod op hop
    rcases apiSigninPOST_cases body referer backend prod with ⟨t, rp, he⟩ | ⟨msg, he⟩ <;>
      rw [he] at hop <;> simp [signinErrorRedirect] at hop
    exact ⟨t, hop⟩
  · intro body referer su si prod op hop
    rcases apiSignupPOST_cases body referer su si prod with ⟨t, rp, he⟩ | he | ⟨msg, he⟩ <;>
      rw [he] at hop <;> simp [apiSignupCatch] at hop
    exact ⟨t, hop⟩
  · intro form pathname token revoke op hop
    simp [apiSignoutPOST] at hop
    exact hop
  · intro referer form token revoke prod
    simp [authSignoutPOST]

/-- Witness for C4: the cookie set by a concrete successful sign-in carries
exactly the contract options. -/
theorem cookie_flags_contract_witness :
    ∃ v, CookieOp.setOp cookieName "tok123" (sessionCookieSetOptions true) =
      .setOp cookieName v (sessionCookieSetOptions true) :=
  cookie_flags_contract.2.1 demoSigninBody "http://x/en/signin"
    (.returned 200 (some demoSigninRespData)) true
    (.setOp cookieName "tok123" (sessionCookieSetOptions true))
    (by decide)

set_option maxHeartbeats 1000000 in
/-- C5: for every request whose path begins with a 2-letter locale prefix
(`en` or `ru`), every redirect issued by the gate targets a path with the
same locale prefix — no gate redirect changes the locale. -/
theorem gate_redirect_preserves_locale (p lang : String) (token : Option String)
    (res : ResolveUserResult) (target : String) (st : Nat)
    (hl : lang = "en" ∨ lang = "ru")
    (hp : jsStartsWith p ("/" ++ lang) = true)
    (hr : (onRequest p token res).action = .redirect target st) :
    jsStartsWith target ("/" ++ lang) = true := by
  rcases hl with rfl | rfl <;>
  · first
      | have hlang := extractLang_of_en p (by simpa using hp)
      | have hlang := extractLang_of_ru p (by simpa using hp)
    simp only [onRequest] at hr
    rw [hlang] at hr
    repeat' split at hr
    all_goals dsimp only at hr
    all_goals
      first
        | (simp only [GateAction.redirect.injEq] at hr
           obtain ⟨h1, h2⟩ := hr
           subst h1
           first
             | decide
             | exact jsStartsWith_of_data _ _ _ _ (String.data_append _ _) (by decide))
        | simp at hr

/-- Witness for C5: the no-cookie redirect from `/ru/dashboard/model` stays
in the `ru` locale. -/
theorem gate_redirect_preserves_locale_witness :
    jsStartsWith "/ru/signin?reason=auth_required" ("/" ++ "ru") = true :=
  gate_redirect_preserves_locale "/ru/dashboard/model" "ru" none
    { user := none, status := none, timedOut := false } "/ru/signin?reason=auth_required" 302
    (Or.inr rfl) (by decide) (by decide)

/-- C6: an authenticated, onboarding-complete user whose role differs from
the role segment of the requested dashboard path is answered with a 302
redirect to the same-locale dashboard path of the user's actual role — the
request is never forwarded to the other role's content. -/
theorem gate_dashboard_role_enforcement (p lang tok : String) (res : ResolveUserResult)
    (u : User) (B : Role)
    (hl : lang = "en" ∨ lang = "ru")
    (hdash : jsStartsWith p ("/" ++ lang ++ "/dashboard") = true)
    (hu : res.user = some u) (hc : u.onboarding_completed = true)
    (hrole : dashboardRoleMatch p = some B) (hne : B ≠ u.account_type) :
    onRequest p (some tok) res =
      { action := .redirect ("/" ++ lang ++ "/dashboard/" ++ u.account_type.toPathSegment) 302,
        clearedCookie := false, localsUser := some u } := by
  obtain ⟨hskip, hpub, hprotT, hlang⟩ := protected_classification p lang hl (Or.inl hdash)
  obtain ⟨t, hd⟩ := (jsStartsWith_iff _ _).mp hdash
  rcases hl with rfl | rfl <;>
  · have honb : jsStartsWith p ("/" ++ extractLang p ++ "/onboarding") = false := by
      rw [hlang]
      unfold jsStartsWith
      rw [hd]
      exact isPrefixOf_eq_false_of_conflict _ _ _ (by decide)
    rw [hlang] at honb
    have hdash2 := hdash
    simp at honb hdash2
    simp [onRequest, hskip, hpub, hprotT, hlang, hu, honb, hdash2, hc, hrole, hne,
      String.append_assoc]

/-- Witness for C6: an artist requesting the studio dashboard is redirected
to the artist dashboard. -/
theorem gate_dashboard_role_enforcement_witness :
    onRequest "/en/dashboard/studio" (some "tok")
        { user := some { id := 1, email := "a@b.c", username := "a",
                         account_type := .artist, onboarding_completed := true },
          status := some 200, timedOut := false } =
      { action := .redirect ("/" ++ "en" ++ "/dashboard/" ++ Role.toPathSegment .artist) 302,
        clearedCookie := false,
        localsUser := some { id := 1, email := "a@b.c", username := "a",
                             account_type := .artist, onboarding_completed := true } } :=
  gate_dashboard_role_enforcement "/en/dashboard/studio" "en" "tok" _ _ .studio
    (Or.inl rfl) (by decide) rfl rfl (by decide) (by decide)

/-- C7: every `POST` to the sign-out endpoint clears the session cookie and
answers a 303 redirect to the locale home page, for every token (present,
absent, or unknown to the backend) and every revocation outcome — repeated
sign-out never produces an error response. -/
theorem signout_always_clears_and_redirects (form : FormDataResult) (pathname : String)
    (token : Option String) (revoke : RevokeResult) :
    apiSignoutPOST "POST" form pathname token revoke =
      { cookieOps := [.deleteOp cookieName clearCookieOptions],
        response := .redirectTo ("/" ++ signoutLang form pathname) [] 303 } := by
  simp [apiSignoutPOST]

/-- C8: a request to a protected path with no session cookie is answered
with a 302 redirect to the same-locale sign-in page with
`reason=auth_required` (the login-required indicator, not the session-expired
error), and no cookie-clearing is performed. -/
theorem gate_no_cookie_auth_required (p lang : String) (res : ResolveUserResult)
    (hl : lang = "en" ∨ lang = "ru")
    (hprot : jsStartsWith p ("/" ++ lang ++ "/dashboard") = true ∨
             jsStartsWith p ("/" ++ lang ++ "/onboarding") = true) :
    onRequest p none res =
      { action := .redirect ("/" ++ lang ++ "/signin?reason=auth_required") 302,
        clearedCookie := false, localsUser := none } := by
  obtain ⟨hskip, hpub, hprotT, hlang⟩ := protected_classification p lang hl hprot
  exact onRequest_noToken p lang res hskip hpub hprotT hlang

/-- Witness for C8: `/ru/dashboard/model` with no cookie. -/
theorem gate_no_cookie_auth_required_witness :
    onRequest "/ru/dashboard/model" none { user := none, status := none, timedOut := false } =
      { action := .redirect ("/" ++ "ru" ++ "/signin?reason=auth_required") 302,
        clearedCookie := false, localsUser := none } :=
  gate_no_cookie_auth_required "/ru/dashboard/model" "ru" _ (Or.inr rfl) (Or.inl (by decide))

/-- C9: whenever a token is presented and resolution answers 401/403, the
middleware deletes the session cookie regardless of how the path is later
classified — also on public paths (witness: the home page `/en`). -/
theorem gate_clears_cookie_on_any_path (p tok : String) (res : ResolveUserResult)
    (hskip : shouldSkipPath p = false) (hu : res.user = none)
    (hst : res.status = some 401 ∨ res.status = some 403) :
    (onRequest p (some tok) res).clearedCookie = true := by
  cases hpub : isPublicPath p <;> cases hprot : isProtectedPath p <;>
    rcases hst with hst | hst <;> simp [onRequest, hskip, hpub, hprot, hu, hst]

/-- Witness for C9: the public home page `/en` with an invalid token still
gets the cookie cleared. -/
theorem gate_clears_cookie_on_any_path_witness :
    (onRequest "/en" (some "tok")
      { user := none, status := some 401, timedOut := false }).clearedCookie = true :=
  gate_clears_cookie_on_any_path "/en" "tok" _ (by decide) rfl (Or.inl rfl)

/-- C10: a request whose path is not public, matches no protected prefix and
no skip prefix is always forwarded downstream — never redirected — whatever
the token and resolution outcome. -/
theorem gate_unclassified_forwarded (p : String) (token : Option String) (res : ResolveUserResult)
    (hskip : shouldSkipPath p = false) (hpub : isPublicPath p = false)
    (hprot : isProtectedPath p = false) :
    (onRequest p token res).action = .forward := by
  simp [onRequest, hskip, hpub, hprot]

/-- Witness for C10: the catalog page `/en/artists` is forwarded even with an
invalid token. -/
theorem gate_unclassified_forwarded_witness :
    (onRequest "/en/artists" (some "tok")
      { user := none, status := some 401, timedOut := false }).action = .forward :=
  gate_unclassified_forwarded "/en/artists" (some "tok") _ (by decide) (by decide) (by decide)

end InkQ
